import Mathlib

/-!
Shallow embedding of the Byte_Learn_17_backend core subsystems and proofs
settling the specification claims.

Embedded source files:
* src/job_queue.py  — persistent file-based job queue (save_job,
  update_job_status, delete_job, get_pending_jobs), plus a trace model of
  the file operations each queue function performs, in program order, used
  for the locking-discipline claim.
* src/main.py       — the render-and-upload orchestration endpoint
  (denylist check, scene extraction by regex, per-scene render invocation,
  artifact location, ffmpeg concatenation, upload, cleanup), modelled as a
  pure function from an environment (script, quality, subprocess outcomes,
  filesystem existence oracle, upload outcomes) to the returned result and
  the ordered list of side effects performed.
-/

namespace ByteLearn

/-! ## Job queue data model (src/job_queue.py)

A job record file holds one JSON object.  JSON values that the queue code
manipulates are strings, numbers and nested objects; a Python dict is an
insertion-ordered association list with unique keys, where assignment to an
existing key updates the value in place. -/

/-- JSON-like value stored in a job record. -/
inductive JVal where
  | str : String → JVal
  | num : Int → JVal
  | obj : List (String × JVal) → JVal
deriving Repr

/-- A JSON object / Python dict: insertion-ordered key-value list. -/
abbrev Dict := List (String × JVal)

/-- Python dict lookup, `data.get(k)`: first (unique) binding of the key. -/
def dictGet : Dict → String → Option JVal
  | [], _ => none
  | (k2, v) :: rest, k => if k2 = k then some v else dictGet rest k

/-- Python dict assignment `data[k] = v`: overwrite in place if the key is
present (keeping its position), else append at the end. -/
def dictSet : Dict → String → JVal → Dict
  | [], k, v => [(k, v)]
  | (k2, v2) :: rest, k, v =>
    if k2 = k then (k2, v) :: rest else (k2, v2) :: dictSet rest k v

/-- Python `data.update(kwargs)`: fold `dictSet` over the items of `kwargs`
in order. -/
def dictUpdate (d : Dict) (kwargs : List (String × JVal)) : Dict :=
  kwargs.foldl (fun acc kv => dictSet acc kv.1 kv.2) d

/-- The queue directory: one optional record per job id
(`QUEUE_DIR / f"{job_id}.json"`). -/
abbrev JobQueue := String → Option Dict

/-- src/job_queue.py `save_job`: create or overwrite the record file with
`{"job_id": job_id, "status": "queued", "payload": payload}`. -/
def save_job (jid : String) (payload : JVal) (q : JobQueue) : JobQueue :=
  fun j =>
    if j = jid then
      some [("job_id", JVal.str jid), ("status", JVal.str "queued"), ("payload", payload)]
    else q j

/-- src/job_queue.py `update_job_status`, the function body: return
unchanged if the record file does not exist; otherwise read the record, set
`data["status"] = status`, merge the caller-defined extra fields with
`data.update(kwargs)`, and rewrite the file.  The Python signature
`def update_job_status(job_id, status, **kwargs)` binds `job_id` and
`status` as named parameters, so keyword binding can never place those two
keys into `kwargs`; that binding-time check is modelled by
`call_update_job_status` below, and this function is the body that runs
once binding has succeeded (so here `kwargs` carries only realizable
keys). -/
def update_job_status (jid : String) (stat : String) (kwargs : List (String × JVal))
    (q : JobQueue) : JobQueue :=
  match q jid with
  | none => q
  | some d =>
    fun j =>
      if j = jid then some (dictUpdate (dictSet d "status" (JVal.str stat)) kwargs)
      else q j

/-- A call `update_job_status(job_id, status, **extra)` as Python binds it:
an extra key that collides with a named parameter (`job_id` or `status`)
raises `TypeError: update_job_status() got multiple values for argument ...`
at binding time, before the body runs, leaving the queue unchanged (the
message names the first offending key); otherwise the body executes. -/
def call_update_job_status (jid : String) (stat : String)
    (extra : List (String × JVal)) (q : JobQueue) : Except String JobQueue :=
  match extra.find? (fun kv => kv.1 = "job_id" || kv.1 = "status") with
  | some kv =>
    Except.error
      ("update_job_status() got multiple values for argument \x27" ++ kv.1 ++ "\x27")
  | none => Except.ok (update_job_status jid stat extra q)

/-- src/job_queue.py `delete_job`: remove the record file if present. -/
def delete_job (jid : String) (q : JobQueue) : JobQueue :=
  fun j => if j = jid then none else q j

/-- The membership test `data.get('status') in ['queued', 'processing']`:
true exactly when the status field is one of the two pending strings. -/
def statusPending (d : Dict) : Bool :=
  match dictGet d "status" with
  | some (JVal.str s) => s = "queued" || s = "processing"
  | _ => false

/-- src/job_queue.py `get_pending_jobs`: iterate over all record files (given
here as a list of parse results: `Except.error` is a file whose open or
`json.load` raised, which the code catches, logs and skips), appending each
successfully parsed record whose status is queued or processing. -/
def get_pending_jobs : List (Except String Dict) → List Dict
  | [] => []
  | Except.error _ :: rest => get_pending_jobs rest
  | Except.ok d :: rest =>
    if statusPending d then d :: get_pending_jobs rest else get_pending_jobs rest

/-- Reading one field of one job record file (a record read as the spec's
round-trip property performs it). -/
def readField (q : JobQueue) (jid k : String) : Option JVal :=
  match q jid with
  | none => none
  | some d => dictGet d k

/-! ## File-operation traces of the queue functions (src/job_queue.py)

For the locking-discipline claim we model each queue function as the
sequence of operations it performs on the record file, in program order.
`openTrunc` is `open(file, "w")`, which truncates an existing file at open
time; `openRW` is `open(file, "r+")`; `lockEx`/`unlockF` are
`fcntl.flock(..., LOCK_EX)` / `flock(..., LOCK_UN)`; `writeData` is the
`json.dump` into the file; `truncateF` is `f.truncate()`; `closeF` is the
close at the end of the `with` block.  An operation mutates the on-disk
file contents iff it truncates or writes. -/

/-- One operation on the job record file. -/
inductive FOp where
  | openTrunc : FOp
  | openRW : FOp
  | openRead : FOp
  | lockEx : FOp
  | readAll : FOp
  | seekStart : FOp
  | writeData : FOp
  | truncateF : FOp
  | unlockF : FOp
  | closeF : FOp
deriving Repr, DecidableEq

/-- Which operations mutate the on-disk file contents. -/
def mutatesFile : FOp → Bool
  | FOp.openTrunc => true
  | FOp.writeData => true
  | FOp.truncateF => true
  | _ => false

/-- src/job_queue.py `save_job`, operations on the record file in program
order: open in write mode (truncating), lock, dump, unlock, close. -/
def save_job_fops : List FOp :=
  [FOp.openTrunc, FOp.lockEx, FOp.writeData, FOp.unlockF, FOp.closeF]

/-- src/job_queue.py `update_job_status` (existing record), operations in
program order: open read-write, lock, load, seek 0, dump, truncate, unlock,
close. -/
def update_job_fops : List FOp :=
  [FOp.openRW, FOp.lockEx, FOp.readAll, FOp.seekStart, FOp.writeData,
   FOp.truncateF, FOp.unlockF, FOp.closeF]

/-- src/job_queue.py `get_pending_jobs`, operations on one record file:
open read-only, load, close — no lock is ever taken by the reader. -/
def read_job_fops : List FOp :=
  [FOp.openRead, FOp.readAll, FOp.closeF]

/-- Walk a trace tracking whether the exclusive lock is held; true iff every
file-mutating operation happens while the lock is held. -/
def lockCoveredGo : Bool → List FOp → Bool
  | _, [] => true
  | held, op :: rest =>
    if op = FOp.lockEx then lockCoveredGo true rest
    else if op = FOp.unlockF then lockCoveredGo false rest
    else if mutatesFile op && !held then false
    else lockCoveredGo held rest

/-- The exclusive advisory lock is held for the entire duration of the
write: every file-mutating operation of the trace occurs between lock
acquisition and release. -/
def lockCovered (ops : List FOp) : Bool := lockCoveredGo false ops

/-! ## String helpers shared by the orchestrator model (src/main.py) -/

/-- Prefix test on character lists. -/
def listPrefixB : List Char → List Char → Bool
  | [], _ => true
  | _ :: _, [] => false
  | x :: xs, y :: ys => x == y && listPrefixB xs ys

/-- Infix test on character lists. -/
def listInfixB (n : List Char) : List Char → Bool
  | [] => listPrefixB n []
  | y :: ys => listPrefixB n (y :: ys) || listInfixB n ys

/-- Python substring containment, `needle in hay`. -/
def substrB (needle hay : String) : Bool := listInfixB needle.data hay.data

/-- Python `str.lower()` (ASCII; the stderr markers compared are ASCII). -/
def lowerStr (s : String) : String := String.mk (s.data.map Char.toLower)

/-- Python `s[:n]`: the first `n` characters (whole string when shorter). -/
def takeStr (s : String) (n : Nat) : String := String.mk (s.data.take n)

/-- Python `s[-n:]`: the last `n` characters (whole string when shorter). -/
def takeRightStr (s : String) (n : Nat) : String :=
  String.mk (s.data.drop (s.data.length - n))

/-- Python whitespace (ASCII, which covers every input compared here). -/
def isSpaceCh (c : Char) : Bool :=
  c = ' ' || c = '\t' || c = '\n' || c = '\r' || c = '\x0b' || c = '\x0c'

/-- Python `str.strip()`: drop whitespace from both ends. -/
def trimStr (s : String) : String :=
  String.mk (((s.data.dropWhile isSpaceCh).reverse.dropWhile isSpaceCh).reverse)

/-- Split on a one-character separator (the splits used here are on "/"
and "."), keeping empty pieces, as Python `str.split(sep)` does. -/
def splitOnCharGo (sep : Char) : List Char → List Char → List String
  | [], acc => [String.mk acc.reverse]
  | c :: cs, acc =>
    if c = sep then String.mk acc.reverse :: splitOnCharGo sep cs []
    else splitOnCharGo sep cs (c :: acc)

/-- Split a string on a one-character separator. -/
def splitOnChar (sep : Char) (s : String) : List String := splitOnCharGo sep s.data []

/-- Join strings with a separator (Python `sep.join(xs)`). -/
def joinWith (sep : String) : List String → String
  | [] => ""
  | [x] => x
  | x :: xs => x ++ sep ++ joinWith sep xs

/-- One pass of Python `str.replace`: replace left-to-right,
non-overlapping.  A successful match consumes at least one character, so
fuel equal to the initial length never runs out. -/
def replaceChs (needle rep : List Char) : Nat → List Char → List Char
  | 0, cs => cs
  | fuel + 1, cs =>
    match cs with
    | [] => []
    | c :: rest =>
      if listPrefixB needle (c :: rest) then
        rep ++ replaceChs needle rep fuel (List.drop needle.length (c :: rest))
      else c :: replaceChs needle rep fuel rest

/-- Python `s.replace(needle, rep)` for a non-empty needle (the only use
here replaces the non-empty "tmp"). -/
def replaceStr (s needle rep : String) : String :=
  if needle.data = [] then s
  else String.mk (replaceChs needle.data rep.data s.data.length s.data)

/-- Python `repr` of a list of strings, as interpolated into the
locate-failure detail: `['p1', 'p2']`. -/
def pyStrList (xs : List String) : String :=
  "[" ++ joinWith ", " (xs.map (fun s => "\x27" ++ s ++ "\x27")) ++ "]"

/-- `pathlib.Path(p).stem`: final path component without its last suffix. -/
def pathStem (p : String) : String :=
  let name := (splitOnChar '/' p).getLastD ""
  match splitOnChar '.' name with
  | [] => name
  | [_] => name
  | "" :: [_] => name
  | parts => joinWith "." parts.dropLast

/-- Value of one base-36 digit as accepted by Python `int(s, 36)`
(case-insensitive letters and decimal digits). -/
def digit36 (c : Char) : Option Nat :=
  if c.isDigit then some (c.toNat - 48)
  else if 'a' ≤ c ∧ c ≤ 'z' then some (c.toNat - 87)
  else if 'A' ≤ c ∧ c ≤ 'Z' then some (c.toNat - 55)
  else none

/-- Base-36 accumulator loop: a single underscore is allowed only between
two digits (Python numeric-literal grouping rule; the Boolean argument
records that the previous character was an underscore, which must be
followed by a digit); any other character, a misplaced underscore, or an
empty digit string yields `none` (ValueError). -/
def parse36Go : List Char → Option Nat → Bool → Option Nat
  | [], acc, afterUnd => if afterUnd then none else acc
  | c :: rest, acc, afterUnd =>
    if c = '_' then
      if afterUnd then none
      else
        match acc with
        | none => none
        | some a => parse36Go rest (some a) true
    else
      match digit36 c with
      | some d => parse36Go rest (some (acc.getD 0 * 36 + d)) false
      | none => none

/-- Python `int(s, 36)` on an unsigned digit string (surrounding whitespace
stripped); `none` models the ValueError raised on invalid input. -/
def parse36 (s : String) : Option Nat := parse36Go (trimStr s).data none false

/-! ## Scene extraction (src/main.py)

`re.findall(r"class\s+(\w+)\s*\(\s*Scene\s*\)", script)`: scan left to
right, at each position try to match the pattern, collect the captured
class name, and resume after the end of each non-overlapping match.  In
this pattern every greedy character-class repetition is followed by a
character outside the class, so maximal munch without backtracking is
exactly the regex semantics. -/

/-- Python `\w` (ASCII word character). -/
def isWordCh (c : Char) : Bool := c.isAlphanum || c = '_'

/-- Match a literal character sequence, returning the remainder. -/
def stripLit : List Char → List Char → Option (List Char)
  | [], cs => some cs
  | _ :: _, [] => none
  | l :: ls, c :: cs => if c = l then stripLit ls cs else none

/-- Greedy one-or-more repetition of a character class: the consumed run
and the remainder, failing on an empty run. -/
def takeSome1 (p : Char → Bool) (cs : List Char) : Option (List Char × List Char) :=
  match cs.takeWhile p with
  | [] => none
  | t => some (t, cs.dropWhile p)

/-- Try the scene-declaration pattern at the start of `cs`; on success
return the captured class name and the remainder after the match. -/
def matchSceneAt (cs : List Char) : Option (String × List Char) :=
  match stripLit ("class".data) cs with
  | none => none
  | some cs1 =>
    match takeSome1 isSpaceCh cs1 with
    | none => none
    | some (_, cs2) =>
      match takeSome1 isWordCh cs2 with
      | none => none
      | some (nm, cs3) =>
        match stripLit ("(".data) (cs3.dropWhile isSpaceCh) with
        | none => none
        | some cs4 =>
          match stripLit ("Scene".data) (cs4.dropWhile isSpaceCh) with
          | none => none
          | some cs5 =>
            match stripLit (")".data) (cs5.dropWhile isSpaceCh) with
            | none => none
            | some cs6 => some (String.mk nm, cs6)

/-- Left-to-right non-overlapping scan.  A successful match consumes at
least twelve characters, so each recursive call receives a strictly shorter
list and fuel equal to the initial length never runs out. -/
def findAllGo : Nat → List Char → List String
  | 0, _ => []
  | _ + 1, [] => []
  | fuel + 1, c :: rest =>
    match matchSceneAt (c :: rest) with
    | some (nm, cs2) => nm :: findAllGo fuel cs2
    | none => findAllGo fuel rest

/-- `re.findall(scene_pattern, script)`: the scene class names in
declaration order. -/
def findScenes (script : String) : List String := findAllGo script.length script.data

/-- The denylist of src/main.py, checked by substring containment. -/
def forbiddenKeywords : List String :=
  ["import os", "subprocess", "exec", "__import__", "open(", "file("]

/-- `any(keyword in request.script_code for keyword in unsafe_keywords)`. -/
def hasForbidden (script : String) : Bool :=
  forbiddenKeywords.any (fun k => substrB k script)

/-! ## Orchestrator model (src/main.py, render_and_upload)

The endpoint is modelled as a pure function of an environment capturing
the request and the behaviour of the external collaborators: the outcome
of the manim subprocess per scene name, an existence oracle for the output
tree, the ffmpeg concatenation outcome, and the storage upload outcome.
It returns the HTTP-level result together with the ordered list of side
effects (events) the request performed. -/

/-- HTTP-level failure: the status code and detail of the raised
HTTPException (or of an unhandled internal error). -/
structure Http where
  status : Nat
  detail : String
deriving Repr, DecidableEq

/-- The JSON body returned on success. -/
structure Resp where
  success : Bool
  video_url : String
  message : String
  scenes_rendered : Nat
deriving Repr, DecidableEq

/-- Outcome of one `subprocess.run(["manim", ...])` call: a timeout, or
completion with an exit code and captured streams. -/
inductive RenderOutcome where
  | timeout : RenderOutcome
  | completed : Int → String → String → RenderOutcome

/-- A side effect performed by the endpoint, in the order performed:
writing the temp script, spawning a subprocess, writing the concat list
file (with its lines), creating the output directory, deleting a file,
deleting a directory tree, and uploading a file (bucket, key, source). -/
inductive Event where
  | writeTemp : String → String → Event
  | spawn : List String → Event
  | writeLines : String → List String → Event
  | mkdirP : String → Event
  | unlink : String → Event
  | rmtree : String → Event
  | upload : String → String → String → Event
deriving Repr, DecidableEq

/-- Environment of one request: the request fields, the temp file name the
OS handed out, the working directory, and the behaviour of the external
collaborators. -/
structure Env where
  script : String
  quality : String
  tempPath : String
  cwd : String
  render : String → RenderOutcome
  fs : String → Bool
  concatCode : Int
  concatErr : String
  uploadOk : Bool
  publicUrl : String

/-- `QUALITY_FLAGS` of src/main.py. -/
def qualityFlags : List (String × String) :=
  [("low", "-ql"), ("medium", "-qm"), ("high", "-qh"), ("4k", "-qk")]

/-- The quality-folder map of src/main.py. -/
def qualityFolders : List (String × String) :=
  [("low", "480p15"), ("medium", "720p30"), ("high", "1080p60"), ("4k", "2160p60")]

/-- `QUALITY_FLAGS.get(request.quality, "-ql")`. -/
def flagOf (q : String) : String := (List.lookup q qualityFlags).getD "-ql"

/-- `{...}.get(request.quality, "480p15")`. -/
def qfOf (q : String) : String := (List.lookup q qualityFolders).getD "480p15"

/-- The flat-layout candidate `media/videos/<base>/<qualityFolder>/<scene>.mp4`. -/
def flatPath (base qf scene : String) : String :=
  "media/videos/" ++ base ++ "/" ++ qf ++ "/" ++ scene ++ ".mp4"

/-- The nested-layout candidate `media/media/videos/<base>/<qualityFolder>/<scene>.mp4`. -/
def nestedPath (base qf scene : String) : String :=
  "media/media/videos/" ++ base ++ "/" ++ qf ++ "/" ++ scene ++ ".mp4"

/-- `possible_paths` of src/main.py: the two layout candidates, flat first. -/
def possiblePaths (base qf scene : String) : List String :=
  [flatPath base qf scene, nestedPath base qf scene]

/-- The locate loop: the first candidate that exists on disk. -/
def firstExisting (fs : String → Bool) : List String → Option String
  | [] => none
  | p :: ps => if fs p then some p else firstExisting fs ps

/-- The artifact locator of src/main.py: the first existing candidate, or
on failure the full list of candidate paths that were checked (which the
endpoint interpolates into the error detail). -/
def locateOutput (fs : String → Bool) (base qf scene : String) : Except (List String) String :=
  match firstExisting fs (possiblePaths base qf scene) with
  | some p => Except.ok p
  | none => Except.error (possiblePaths base qf scene)

/-- The located artifact path of a scene when the locator succeeds (dummy
empty string otherwise; used only to state theorems about successful runs). -/
def locatedPath (fs : String → Bool) (base qf scene : String) : String :=
  match locateOutput fs base qf scene with
  | Except.ok p => p
  | Except.error _ => ""

/-- Timeout detail of src/main.py. -/
def timeoutMsg (scene : String) : String :=
  "Scene \x27" ++ scene ++ "\x27 timed out after 300 seconds. The scene likely contains an infinite loop, excessive computations, or animations that take too long. Simplify the scene animations and reduce complexity."

/-- Non-zero-exit detail of src/main.py: the LaTeX classification is a
substring check on stderr, else the generic render failure, both carrying
the first 500 characters of stderr. -/
def renderErrMsg (scene err : String) : String :=
  if substrB "LaTeX" err || substrB "tex" (lowerStr err) then
    "LaTeX rendering failed in scene \x27" ++ scene ++ "\x27. Use Text() instead of Tex() for simple text. Error: " ++ takeStr err 500
  else
    "Render failed for scene \x27" ++ scene ++ "\x27: " ++ takeStr err 500

/-- Locate-failure detail of src/main.py, listing both checked paths. -/
def locateErrMsg (scene : String) (checked : List String) : String :=
  "Output file not generated for scene \x27" ++ scene ++ "\x27. Checked: " ++ pyStrList checked

/-- The per-scene render loop of src/main.py: for each scene in order,
spawn manim, fail fast on timeout or non-zero exit or missing output,
otherwise record the located artifact and continue.  Returns the events
performed and either the failure or the artifact list in scene order. -/
def renderScenes (env : Env) (flag qf base : String) :
    List String → List Event × Except Http (List String)
  | [] => ([], Except.ok [])
  | scene :: rest =>
    match env.render scene with
    | RenderOutcome.timeout =>
      ([Event.spawn ["manim", flag, env.tempPath, scene]],
       Except.error ⟨500, timeoutMsg scene⟩)
    | RenderOutcome.completed code _ err =>
      if code ≠ 0 then
        ([Event.spawn ["manim", flag, env.tempPath, scene]],
         Except.error ⟨500, renderErrMsg scene err⟩)
      else
        match locateOutput env.fs base qf scene with
        | Except.error checked =>
          ([Event.spawn ["manim", flag, env.tempPath, scene]],
           Except.error ⟨500, locateErrMsg scene checked⟩)
        | Except.ok path =>
          match renderScenes env flag qf base rest with
          | (evs, res) =>
            (Event.spawn ["manim", flag, env.tempPath, scene] :: evs,
             Except.map (fun vs => path :: vs) res)

/-- One line of the ffmpeg concat list: `file '<absolute path>'`, where
`Path.absolute()` prefixes the working directory. -/
def fileLine (cwd p : String) : String := "file \x27" ++ cwd ++ "/" ++ p ++ "\x27"

/-- The assembly step of src/main.py: a single artifact is itself the final
video (no subprocess, no new file); otherwise write the concat list in
artifact order, create the output directory, run ffmpeg in stream-copy
concat mode, and on success delete the concat list and return the new
final path. -/
def assembleStep (env : Env) (base qf : String) (rendered : List String) :
    List Event × Except Http String :=
  if rendered.length = 1 then ([], Except.ok (rendered.headD ""))
  else
    if env.concatCode ≠ 0 then
      ([Event.writeLines ("media/" ++ base ++ "_concat.txt") (rendered.map (fileLine env.cwd)),
        Event.mkdirP ("media/videos/" ++ base ++ "/" ++ qf),
        Event.spawn ["ffmpeg", "-f", "concat", "-safe", "0", "-i",
          "media/" ++ base ++ "_concat.txt", "-c", "copy",
          "media/videos/" ++ base ++ "/" ++ qf ++ "/final_output.mp4"]],
       Except.error ⟨500, "Failed to concatenate videos: " ++ takeStr env.concatErr 500⟩)
    else
      ([Event.writeLines ("media/" ++ base ++ "_concat.txt") (rendered.map (fileLine env.cwd)),
        Event.mkdirP ("media/videos/" ++ base ++ "/" ++ qf),
        Event.spawn ["ffmpeg", "-f", "concat", "-safe", "0", "-i",
          "media/" ++ base ++ "_concat.txt", "-c", "copy",
          "media/videos/" ++ base ++ "/" ++ qf ++ "/final_output.mp4"],
        Event.unlink ("media/" ++ base ++ "_concat.txt")],
       Except.ok ("media/videos/" ++ base ++ "/" ++ qf ++ "/final_output.mp4"))

/-- The upload-key timestamp of src/main.py:
`int(Path(temp_path).stem.replace("tmp", "")[-8:], 36)` when "tmp" occurs in
the temp path (none models the unhandled ValueError when the digit string is
invalid), else the empty string. -/
def timestampStr (tempPath : String) : Option String :=
  if substrB "tmp" tempPath then
    match parse36 (takeRightStr (replaceStr (pathStem tempPath) "tmp" "") 8) with
    | some n => some (toString n)
    | none => none
  else some ""

/-- The upload step of src/main.py: compute the storage key, upload the
final video to the `videos` bucket, fail if the upload result is falsy,
then resolve the public URL and fail if it is falsy. -/
def uploadStep (env : Env) (finalVideo : String) : List Event × Except Http String :=
  match timestampStr env.tempPath with
  | none => ([], Except.error ⟨500, "Internal Server Error"⟩)
  | some ts =>
    if env.uploadOk then
      if env.publicUrl = "" then
        ([Event.upload "videos" ("manim_" ++ ts ++ "_" ++ env.quality ++ ".mp4") finalVideo],
         Except.error ⟨500, "Could not obtain public URL from Supabase"⟩)
      else
        ([Event.upload "videos" ("manim_" ++ ts ++ "_" ++ env.quality ++ ".mp4") finalVideo],
         Except.ok ("manim_" ++ ts ++ "_" ++ env.quality ++ ".mp4"))
    else
      ([Event.upload "videos" ("manim_" ++ ts ++ "_" ++ env.quality ++ ".mp4") finalVideo],
       Except.error ⟨500, "Upload failed"⟩)

/-- The per-artifact deletions of the success-path cleanup block:
`if video.exists(): video.unlink()` for each rendered video. -/
def cleanupUnlinks (fs : String → Bool) : List String → List Event
  | [] => []
  | v :: rest => (if fs v then [Event.unlink v] else []) ++ cleanupUnlinks fs rest

/-- `if dir.exists(): shutil.rmtree(dir)`. -/
def rmDirIf (fs : String → Bool) (d : String) : List Event :=
  if fs d then [Event.rmtree d] else []

/-- The success-path cleanup block of src/main.py: delete each rendered
video, the final video when distinct from every rendered one, and the four
layout directories (flat and nested, videos and images). -/
def cleanupEvents (env : Env) (base : String) (rendered : List String)
    (finalVideo : String) : List Event :=
  cleanupUnlinks env.fs rendered
    ++ (if finalVideo ∈ rendered then []
        else if env.fs finalVideo then [Event.unlink finalVideo] else [])
    ++ rmDirIf env.fs ("media/videos/" ++ base)
    ++ rmDirIf env.fs ("media/images/" ++ base)
    ++ rmDirIf env.fs ("media/media/videos/" ++ base)
    ++ rmDirIf env.fs ("media/media/images/" ++ base)

/-- Everything src/main.py does after scene extraction succeeded: write the
temp script, render each scene, assemble, upload, clean up on success; the
`finally` clause deletes the temp script on every path. -/
def afterExtract (env : Env) (scenes : List String) : Except Http Resp × List Event :=
  match renderScenes env (flagOf env.quality) (qfOf env.quality) (pathStem env.tempPath) scenes with
  | (ev1, Except.error e) =>
    (Except.error e,
     Event.writeTemp env.tempPath env.script :: (ev1 ++ [Event.unlink env.tempPath]))
  | (ev1, Except.ok rendered) =>
    match assembleStep env (pathStem env.tempPath) (qfOf env.quality) rendered with
    | (ev2, Except.error e) =>
      (Except.error e,
       Event.writeTemp env.tempPath env.script :: (ev1 ++ ev2 ++ [Event.unlink env.tempPath]))
    | (ev2, Except.ok finalVideo) =>
      match uploadStep env finalVideo with
      | (ev3, Except.error e) =>
        (Except.error e,
         Event.writeTemp env.tempPath env.script ::
           (ev1 ++ ev2 ++ ev3 ++ [Event.unlink env.tempPath]))
      | (ev3, Except.ok key) =>
        (Except.ok ⟨true, env.publicUrl,
           "Rendered and uploaded " ++ toString scenes.length ++ " scenes: " ++ key,
           scenes.length⟩,
         Event.writeTemp env.tempPath env.script ::
           (ev1 ++ ev2 ++ ev3
             ++ cleanupEvents env (pathStem env.tempPath) rendered finalVideo
             ++ [Event.unlink env.tempPath]))

/-- src/main.py `render_and_upload`: the denylist check and the scene
extraction reject with HTTP 400 before any side effect; otherwise the
pipeline of `afterExtract` runs. -/
def render_and_upload (env : Env) : Except Http Resp × List Event :=
  if hasForbidden env.script then
    (Except.error ⟨400, "Unsafe code detected"⟩, [])
  else
    match findScenes env.script with
    | [] => (Except.error ⟨400, "No Scene classes found in script"⟩, [])
    | s :: ss => afterExtract env (s :: ss)

/-! ## Event classifiers and projections used to state the claims -/

/-- Is the event a subprocess spawn. -/
def Event.isSpawn : Event → Bool
  | Event.spawn _ => true
  | _ => false

/-- Is the event a directory-tree removal. -/
def Event.isRmtree : Event → Bool
  | Event.rmtree _ => true
  | _ => false

/-- Is the event a single-file deletion. -/
def Event.isUnlink : Event → Bool
  | Event.unlink _ => true
  | _ => false

/-- Is the event a spawn of the rendering engine. -/
def manimSpawn : Event → Bool
  | Event.spawn (c :: _) => c = "manim"
  | _ => false

/-- Events belonging to the assembly step: an ffmpeg spawn, writing the
concat manifest, or creating the assembly output directory. -/
def assemblyEvent : Event → Bool
  | Event.spawn cmd => cmd.headD "" = "ffmpeg"
  | Event.writeLines _ _ => true
  | Event.mkdirP _ => true
  | _ => false

/-- The concat manifest writes of a trace: path and lines of each. -/
def manifestOfEvent : Event → Option (String × List String)
  | Event.writeLines p ls => some (p, ls)
  | _ => none

/-- All concat manifests written during a trace. -/
def manifestsOf (tr : List Event) : List (String × List String) :=
  tr.filterMap manifestOfEvent

/-- The source file of an upload event. -/
def uploadSrcOfEvent : Event → Option String
  | Event.upload _ _ src => some src
  | _ => none

/-- The files uploaded during a trace, in order. -/
def uploadSrcs (tr : List Event) : List String :=
  tr.filterMap uploadSrcOfEvent

/-- The HTTP status of a failed result. -/
def resultStatus : Except Http Resp → Option Nat
  | Except.error e => some e.status
  | Except.ok _ => none

/-! ## Concrete environments used as counterexamples and witnesses -/

/-- Two-scene request where scene B renders with exit code 1; scene A
renders fine and its flat-layout artifact exists. -/
def envC1 : Env :=
  ⟨"class A(Scene):\n    pass\nclass B(Scene):\n    pass\n",
   "low", "/tmp/tmpabcd1234.py", "/app",
   fun s => if s = "A" then RenderOutcome.completed 0 "" ""
            else RenderOutcome.completed 1 "" "boom",
   fun p => p == "media/videos/tmpabcd1234/480p15/A.mp4",
   0, "", true, "http://example.com/u"⟩

/-- A request whose script has no scene declaration and no denylisted
substring. -/
def envC3 : Env :=
  ⟨"print(1)\n", "low", "/tmp/tmpabcd1234.py", "/app",
   fun _ => RenderOutcome.completed 0 "" "",
   fun _ => false, 0, "", true, "http://example.com/u"⟩

/-- Two-scene request where everything succeeds: both renders exit 0, both
flat-layout artifacts exist, concatenation and upload succeed. -/
def envC4 : Env :=
  ⟨"class A(Scene):\n    pass\nclass B(Scene):\n    pass\n",
   "low", "/tmp/tmpcd12.py", "/app",
   fun _ => RenderOutcome.completed 0 "" "",
   fun p => p == "media/videos/tmpcd12/480p15/A.mp4"
         || p == "media/videos/tmpcd12/480p15/B.mp4",
   0, "", true, "http://example.com/u"⟩

/-- Single-scene request where everything succeeds. -/
def envC8 : Env :=
  ⟨"class A(Scene):\n    pass\n",
   "low", "/tmp/tmpabc123.py", "/app",
   fun _ => RenderOutcome.completed 0 "" "",
   fun p => p == "media/videos/tmpabc123/480p15/A.mp4",
   0, "", true, "http://example.com/u"⟩

/-- The empty queue directory. -/
def emptyQueue : JobQueue := fun _ => none

/-- A queue holding one freshly saved record for job id `job1`. -/
def qC10 : JobQueue :=
  fun j =>
    if j = "job1" then
      some [("job_id", JVal.str "job1"), ("status", JVal.str "queued"),
            ("payload", JVal.str "x")]
    else none

end ByteLearn

namespace ByteLearn

/-! ## Helper lemmas -/

/-- Monotonicity of `List.all` along a pointwise implication. -/
theorem all_mono {α : Type} {p q : α → Bool} (h : ∀ a, p a = true → q a = true) :
    ∀ l : List α, l.all p = true → l.all q = true := by
  intro l hl
  rw [List.all_eq_true] at hl ⊢
  exact fun a ha => h a (hl a ha)

/-- Setting a key and reading it back yields the new value. -/
theorem dictGet_dictSet_self (d : Dict) (k : String) (v : JVal) :
    dictGet (dictSet d k v) k = some v := by
  induction d with
  | nil => simp [dictSet, dictGet]
  | cons kv rest ih =>
    obtain ⟨k2, v2⟩ := kv
    by_cases h : k2 = k
    · simp [dictSet, dictGet, h]
    · simp [dictSet, dictGet, h, ih]

/-- Setting one key leaves reads of a different key unchanged. -/
theorem dictGet_dictSet_ne (d : Dict) (k k2 : String) (v : JVal) (h : ¬ k = k2) :
    dictGet (dictSet d k2 v) k = dictGet d k := by
  have h2 : ¬ k2 = k := fun hh => h (Eq.symm hh)
  induction d with
  | nil =>
    simp [dictSet, dictGet, h2]
  | cons kv rest ih =>
    obtain ⟨k3, v3⟩ := kv
    by_cases h3 : k3 = k2
    · subst h3
      simp [dictSet, dictGet, h2]
    · simp [dictSet, dictGet, h3, ih]

end ByteLearn

namespace ByteLearn

/-! ## Claim C2 (locking discipline of the job store writers) -/

/-- Claim C2, counterexample: it is not the case that both writers hold the
exclusive lock for the entire duration of their write.  `save_job` opens the
record file in truncating write mode before acquiring the lock, so its first
file mutation happens unlocked. -/
theorem c2_counterexample :
    ¬ (lockCovered save_job_fops = true ∧ lockCovered update_job_fops = true) := by
  decide

/-- Claim C2, amended: `update_job_status` performs its read-modify-write
entirely while holding the exclusive lock, but `save_job` truncates the
record file (open in write mode) before acquiring the lock, and the reader
of `get_pending_jobs` takes no lock at all — so a concurrent reader can
observe a truncated record while a save is in progress. -/
theorem c2_amended :
    lockCovered update_job_fops = true ∧ lockCovered save_job_fops = false ∧
    read_job_fops.contains FOp.lockEx = false := by
  decide

/-! ## Claim C6 (save / updateStatus round-trip) -/

/-- Claim C6: saving a job and reading its record yields status `queued`
and the original payload; updating the status to `processing` with no extra
fields and reading again yields status `processing` with the payload
unchanged. -/
theorem c6_roundtrip (q : JobQueue) (jid : String) (payload : JVal) :
    readField (save_job jid payload q) jid "status" = some (JVal.str "queued") ∧
    readField (save_job jid payload q) jid "payload" = some payload ∧
    readField (update_job_status jid "processing" [] (save_job jid payload q)) jid "status"
      = some (JVal.str "processing") ∧
    readField (update_job_status jid "processing" [] (save_job jid payload q)) jid "payload"
      = some payload := by
  refine ⟨?_, ?_, ?_, ?_⟩ <;>
    simp [readField, save_job, update_job_status, dictUpdate, dictSet, dictGet]

/-! ## Claim C7 (listPending filters exactly the pending statuses) -/

/-- Claim C7: `get_pending_jobs` returns exactly the parseable records whose
status is `queued` or `processing`, in scan order; a record file that fails
to parse is skipped without aborting the scan of the remaining files. -/
theorem c7_list_pending (files : List (Except String Dict)) :
    get_pending_jobs files = (files.filterMap Except.toOption).filter statusPending := by
  induction files with
  | nil => rfl
  | cons f rest ih =>
    cases f with
    | error e => simpa [get_pending_jobs, Except.toOption] using ih
    | ok d =>
      cases h : statusPending d <;>
        simp [get_pending_jobs, Except.toOption, h, ih, List.filter_cons]

/-! ## Claim C9 (updateStatus on a missing record is a no-op) -/

/-- Claim C9: when the record file of the job id does not exist,
`update_job_status` changes nothing: no file is created and the queue
directory contents are unchanged. -/
theorem c9_noop (q : JobQueue) (jid stat : String) (kwargs : List (String × JVal))
    (h : q jid = none) : update_job_status jid stat kwargs q = q := by
  simp [update_job_status, h]

/-- Claim C9, witness: updating a job id in the empty queue directory
leaves the queue directory unchanged. -/
theorem c9_witness : update_job_status "job1" "done" [] emptyQueue = emptyQueue :=
  c9_noop emptyQueue "job1" "done" [] rfl

/-! ## Claim C10 (extra fields versus the named parameters) -/

/-- Claim C10, counterexample: a call whose extra fields include the key
`status` never produces a record whose status equals the extra-field value.
Python keyword binding raises TypeError before the body runs, and the saved
record of `qC10` still reads status `queued`, not the extra-field value
`failed`. -/
theorem c10_counterexample :
    call_update_job_status "job1" "done" [("status", JVal.str "failed")] qC10
      = Except.error
          "update_job_status() got multiple values for argument \x27status\x27" ∧
    readField qC10 "job1" "status" = some (JVal.str "queued") :=
  ⟨rfl, rfl⟩

/-- Claim C10, amended: extra-field keys that collide with the named
parameters cannot be passed — a call whose extra fields include `status` or
`job_id` raises TypeError at binding time, before the body runs, so the
queue is left unchanged.  For the realizable colliding key, `payload`, the
merge `data.update(kwargs)` runs after `data["status"] = status`, so the
extra-field value overwrites the record payload while the status equals the
status argument. -/
theorem c10_amended (q : JobQueue) (jid : String) (d : Dict) (stat : String)
    (v p : JVal) (h : q jid = some d) :
    call_update_job_status jid stat [("status", v)] q
      = Except.error
          "update_job_status() got multiple values for argument \x27status\x27" ∧
    call_update_job_status jid stat [("job_id", v)] q
      = Except.error
          "update_job_status() got multiple values for argument \x27job_id\x27" ∧
    call_update_job_status jid stat [("payload", p)] q
      = Except.ok (update_job_status jid stat [("payload", p)] q) ∧
    readField (update_job_status jid stat [("payload", p)] q) jid "payload" = some p ∧
    readField (update_job_status jid stat [("payload", p)] q) jid "status"
      = some (JVal.str stat) := by
  refine ⟨rfl, rfl, rfl, ?_, ?_⟩ <;>
    · simp only [update_job_status, h, readField, dictUpdate, List.foldl]
      simp [dictGet_dictSet_self, dictGet_dictSet_ne]

/-- Claim C10, amended, witness: on a concrete saved record, passing
`status` or `job_id` as an extra field raises TypeError, and passing
`payload` overwrites the record payload while the status argument is
applied. -/
theorem c10_amended_witness :
    call_update_job_status "job1" "done" [("status", JVal.str "failed")] qC10
      = Except.error
          "update_job_status() got multiple values for argument \x27status\x27" ∧
    call_update_job_status "job1" "done" [("job_id", JVal.str "failed")] qC10
      = Except.error
          "update_job_status() got multiple values for argument \x27job_id\x27" ∧
    call_update_job_status "job1" "done" [("payload", JVal.num 7)] qC10
      = Except.ok (update_job_status "job1" "done" [("payload", JVal.num 7)] qC10) ∧
    readField (update_job_status "job1" "done" [("payload", JVal.num 7)] qC10) "job1" "payload"
      = some (JVal.num 7) ∧
    readField (update_job_status "job1" "done" [("payload", JVal.num 7)] qC10) "job1" "status"
      = some (JVal.str "done") :=
  c10_amended qC10 "job1"
    [("job_id", JVal.str "job1"), ("status", JVal.str "queued"), ("payload", JVal.str "x")]
    "done" (JVal.str "failed") (JVal.num 7) rfl

end ByteLearn

namespace ByteLearn

/-! ## Orchestrator helper lemmas -/

/-- Every event emitted by the render loop is a manim spawn. -/
theorem renderScenes_fst_spawn (env : Env) (flag qf base : String) :
    ∀ scenes : List String, ((renderScenes env flag qf base scenes).1).all manimSpawn = true := by
  intro scenes
  induction scenes with
  | nil => rfl
  | cons s rest ih =>
    cases henv : env.render s with
    | timeout => simp [renderScenes, henv, manimSpawn]
    | completed code out err =>
      by_cases hc : code ≠ 0
      · simp [renderScenes, henv, hc, manimSpawn]
      · cases hl : locateOutput env.fs base qf s with
        | error checked => simp [renderScenes, henv, hc, hl, manimSpawn]
        | ok path =>
          rcases hrr : renderScenes env flag qf base rest with ⟨evs, res⟩
          have ih2 : evs.all manimSpawn = true := by rw [hrr] at ih; simpa using ih
          simp [renderScenes, henv, hc, hl, hrr, manimSpawn, ih2]

/-- When the render loop succeeds, the artifact list is the scene list
mapped through the locator, in scene order. -/
theorem renderScenes_ok_map (env : Env) (flag qf base : String) :
    ∀ (scenes : List String) (evs : List Event) (vids : List String),
      renderScenes env flag qf base scenes = (evs, Except.ok vids) →
      vids = scenes.map (locatedPath env.fs base qf) := by
  intro scenes
  induction scenes with
  | nil =>
    intro evs vids h
    rw [renderScenes] at h
    injection h with h1 h2
    injection h2 with h3
    rw [← h3]
    rfl
  | cons s rest ih =>
    intro evs vids h
    cases hr : env.render s with
    | timeout => simp [renderScenes, hr] at h
    | completed code out err =>
      by_cases hc : code ≠ 0
      · simp [renderScenes, hr, hc] at h
      · cases hl : locateOutput env.fs base qf s with
        | error checked => simp [renderScenes, hr, hc, hl] at h
        | ok path =>
          rcases h2 : renderScenes env flag qf base rest with ⟨evs2, res2⟩
          cases res2 with
          | error e1 => simp [renderScenes, hr, hc, hl, h2, Except.map] at h
          | ok vs =>
            simp only [renderScenes, hr, hc, hl, h2, Except.map, ite_false,
              Prod.mk.injEq, Except.ok.injEq] at h
            obtain ⟨-, hv⟩ := h
            rw [← hv, List.map_cons, ← ih evs2 vs h2]
            have hp : locatedPath env.fs base qf s = path := by
              rw [locatedPath, hl]
            rw [hp]

/-- A manim spawn is not a directory removal. -/
theorem not_rmtree_of_manimSpawn (ev : Event) (h : manimSpawn ev = true) :
    (!(Event.isRmtree ev)) = true := by
  cases ev <;> simp_all [manimSpawn, Event.isRmtree]

/-- No event of the assembly step removes a directory. -/
theorem assembleStep_fst_not_rmtree (env : Env) (base qf : String) (rendered : List String) :
    ((assembleStep env base qf rendered).1).all (fun ev => !(Event.isRmtree ev)) = true := by
  rw [assembleStep]
  by_cases h1 : rendered.length = 1
  · simp [h1]
  · by_cases h2 : env.concatCode ≠ 0 <;> simp [h1, h2, Event.isRmtree]

/-- No event of the upload step removes a directory. -/
theorem uploadStep_fst_not_rmtree (env : Env) (fv : String) :
    ((uploadStep env fv).1).all (fun ev => !(Event.isRmtree ev)) = true := by
  rw [uploadStep]
  cases timestampStr env.tempPath with
  | none => rfl
  | some ts =>
    by_cases hu : env.uploadOk <;> by_cases hp : env.publicUrl = "" <;>
      simp [hu, hp, Event.isRmtree]

/-- The upload step writes no concat manifest. -/
theorem uploadStep_manifests (env : Env) (fv : String) :
    List.filterMap manifestOfEvent ((uploadStep env fv).1) = [] := by
  rw [uploadStep]
  cases timestampStr env.tempPath with
  | none => rfl
  | some ts =>
    by_cases hu : env.uploadOk <;> by_cases hp : env.publicUrl = "" <;>
      simp [hu, hp, manifestOfEvent]

/-- Every per-artifact cleanup event is a file deletion. -/
theorem mem_cleanupUnlinks (fs : String → Bool) :
    ∀ (l : List String) (ev : Event), ev ∈ cleanupUnlinks fs l → Event.isUnlink ev = true := by
  intro l
  induction l with
  | nil => intro ev h; simp [cleanupUnlinks] at h
  | cons v rest ih =>
    intro ev h
    rw [cleanupUnlinks] at h
    rcases List.mem_append.mp h with h1 | h2
    · by_cases hf : fs v
      · rw [if_pos hf] at h1
        rcases List.mem_singleton.mp h1 with rfl
        rfl
      · rw [if_neg hf] at h1
        simp at h1
    · exact ih ev h2

/-- A conditional directory removal only emits a removal event. -/
theorem mem_rmDirIf (fs : String → Bool) (d : String) (ev : Event)
    (h : ev ∈ rmDirIf fs d) : Event.isRmtree ev = true := by
  rw [rmDirIf] at h
  by_cases hf : fs d
  · rw [if_pos hf] at h
    rcases List.mem_singleton.mp h with rfl
    rfl
  · rw [if_neg hf] at h
    simp at h

/-- Every event of the success-path cleanup block is a file deletion or a
directory removal. -/
theorem mem_cleanupEvents (env : Env) (base : String) (rendered : List String) (fv : String) :
    ∀ ev ∈ cleanupEvents env base rendered fv,
      (Event.isUnlink ev || Event.isRmtree ev) = true := by
  intro ev h
  rw [cleanupEvents] at h
  simp only [List.mem_append] at h
  rcases h with ((((h1 | h2) | h3) | h4) | h5) | h6
  · have := mem_cleanupUnlinks env.fs rendered ev h1
    simp [this]
  · by_cases hin : fv ∈ rendered
    · rw [if_pos hin] at h2; simp at h2
    · rw [if_neg hin] at h2
      by_cases hf : env.fs fv
      · rw [if_pos hf] at h2
        rcases List.mem_singleton.mp h2 with rfl
        rfl
      · rw [if_neg hf] at h2; simp at h2
  · have := mem_rmDirIf env.fs _ ev h3; simp [this]
  · have := mem_rmDirIf env.fs _ ev h4; simp [this]
  · have := mem_rmDirIf env.fs _ ev h5; simp [this]
  · have := mem_rmDirIf env.fs _ ev h6; simp [this]

/-- The cleanup block writes no concat manifest. -/
theorem filterMap_manifest_cleanup (env : Env) (base : String) (rendered : List String)
    (fv : String) :
    List.filterMap manifestOfEvent (cleanupEvents env base rendered fv) = [] := by
  rw [List.filterMap_eq_nil_iff]
  intro ev h
  have h2 := mem_cleanupEvents env base rendered fv ev h
  cases ev <;> simp_all [Event.isUnlink, Event.isRmtree, manifestOfEvent]

/-- The cleanup block uploads nothing. -/
theorem filterMap_upload_cleanup (env : Env) (base : String) (rendered : List String)
    (fv : String) :
    List.filterMap uploadSrcOfEvent (cleanupEvents env base rendered fv) = [] := by
  rw [List.filterMap_eq_nil_iff]
  intro ev h
  have h2 := mem_cleanupEvents env base rendered fv ev h
  cases ev <;> simp_all [Event.isUnlink, Event.isRmtree, uploadSrcOfEvent]

/-- No cleanup event belongs to the assembly step. -/
theorem cleanup_all_not_assembly (env : Env) (base : String) (rendered : List String)
    (fv : String) :
    ((cleanupEvents env base rendered fv).all (fun ev => !(assemblyEvent ev))) = true := by
  rw [List.all_eq_true]
  intro ev h
  have h2 := mem_cleanupEvents env base rendered fv ev h
  cases ev <;> simp_all [Event.isUnlink, Event.isRmtree, assemblyEvent]

/-- A list of manim spawns contains no manifest write. -/
theorem filterMap_manifest_spawn (l : List Event) (h : l.all manimSpawn = true) :
    List.filterMap manifestOfEvent l = [] := by
  rw [List.filterMap_eq_nil_iff]
  intro ev he
  rw [List.all_eq_true] at h
  have := h ev he
  cases ev <;> simp_all [manimSpawn, manifestOfEvent]

/-- A list of manim spawns contains no upload. -/
theorem filterMap_upload_spawn (l : List Event) (h : l.all manimSpawn = true) :
    List.filterMap uploadSrcOfEvent l = [] := by
  rw [List.filterMap_eq_nil_iff]
  intro ev he
  rw [List.all_eq_true] at h
  have := h ev he
  cases ev <;> simp_all [manimSpawn, uploadSrcOfEvent]

end ByteLearn

set_option maxRecDepth 8000

namespace ByteLearn

/-- Appending trace segments preserves directory-removal freeness. -/
theorem all_not_rmtree_append (l1 l2 : List Event)
    (h1 : l1.all (fun ev => !(Event.isRmtree ev)) = true)
    (h2 : l2.all (fun ev => !(Event.isRmtree ev)) = true) :
    ((l1 ++ l2).all (fun ev => !(Event.isRmtree ev))) = true := by
  rw [List.all_append]
  exact Bool.and_eq_true_iff.mpr ⟨h1, h2⟩

/-- On every failing run past scene extraction, the emitted trace removes
no directory tree, and the temp script is deleted by the finally clause. -/
theorem afterExtract_error_cleanup (env : Env) (scenes : List String) (e : Http)
    (h : (afterExtract env scenes).1 = Except.error e) :
    ((afterExtract env scenes).2.all (fun ev => !(Event.isRmtree ev))) = true ∧
    Event.unlink env.tempPath ∈ (afterExtract env scenes).2 := by
  rcases hr : renderScenes env (flagOf env.quality) (qfOf env.quality) (pathStem env.tempPath) scenes
    with ⟨ev1, res1⟩
  have hspawn : ev1.all manimSpawn = true := by
    have h2 := renderScenes_fst_spawn env (flagOf env.quality) (qfOf env.quality)
      (pathStem env.tempPath) scenes
    rw [hr] at h2
    simpa using h2
  have hs2 : ev1.all (fun ev => !(Event.isRmtree ev)) = true :=
    all_mono not_rmtree_of_manimSpawn ev1 hspawn
  cases res1 with
  | error e1 =>
    have hae : afterExtract env scenes =
        (Except.error e1,
         Event.writeTemp env.tempPath env.script :: (ev1 ++ [Event.unlink env.tempPath])) := by
      simp only [afterExtract, hr]
    rw [hae]
    constructor
    · rw [List.all_cons]
      exact Bool.and_eq_true_iff.mpr ⟨rfl, all_not_rmtree_append _ _ hs2 rfl⟩
    · simp
  | ok rendered =>
    rcases ha : assembleStep env (pathStem env.tempPath) (qfOf env.quality) rendered
      with ⟨ev2, ares⟩
    have ha2 : ev2.all (fun ev => !(Event.isRmtree ev)) = true := by
      have h3 := assembleStep_fst_not_rmtree env (pathStem env.tempPath) (qfOf env.quality) rendered
      rw [ha] at h3
      simpa using h3
    cases ares with
    | error e2 =>
      have hae : afterExtract env scenes =
          (Except.error e2,
           Event.writeTemp env.tempPath env.script ::
             (ev1 ++ ev2 ++ [Event.unlink env.tempPath])) := by
        simp only [afterExtract, hr, ha]
      rw [hae]
      constructor
      · rw [List.all_cons]
        exact Bool.and_eq_true_iff.mpr
          ⟨rfl, all_not_rmtree_append _ _ (all_not_rmtree_append _ _ hs2 ha2) rfl⟩
      · simp
    | ok fv =>
      rcases hu : uploadStep env fv with ⟨ev3, ures⟩
      have hu2 : ev3.all (fun ev => !(Event.isRmtree ev)) = true := by
        have h3 := uploadStep_fst_not_rmtree env fv
        rw [hu] at h3
        simpa using h3
      cases ures with
      | error e3 =>
        have hae : afterExtract env scenes =
            (Except.error e3,
             Event.writeTemp env.tempPath env.script ::
               (ev1 ++ ev2 ++ ev3 ++ [Event.unlink env.tempPath])) := by
          simp only [afterExtract, hr, ha, hu]
        rw [hae]
        constructor
        · rw [List.all_cons]
          exact Bool.and_eq_true_iff.mpr
            ⟨rfl, all_not_rmtree_append _ _
              (all_not_rmtree_append _ _ (all_not_rmtree_append _ _ hs2 ha2) hu2) rfl⟩
        · simp
      | ok key =>
        have hae : (afterExtract env scenes).1 = Except.ok
            ⟨true, env.publicUrl,
             "Rendered and uploaded " ++ toString scenes.length ++ " scenes: " ++ key,
             scenes.length⟩ := by
          simp only [afterExtract, hr, ha, hu]
        rw [hae] at h
        simp at h

/-! ## Claim C1 (cleanup after a failed run) -/

/-- Claim C1, counterexample: in the two-scene request of `envC1` where
scene B renders with exit code 1, the endpoint reports the render failure
naming scene B, but the trace removes no directory at all — in particular
the scenes\x27 video directory is not removed, contradicting the claim that
both scenes\x27 directories are removed by cleanup on failure. -/
theorem c1_counterexample :
    (render_and_upload envC1).1
        = Except.error ⟨500, "Render failed for scene \x27B\x27: boom"⟩ ∧
    ((render_and_upload envC1).2.all (fun ev => !(Event.isRmtree ev))) = true ∧
    Event.rmtree "media/videos/tmpabcd1234" ∉ (render_and_upload envC1).2 := by
  refine ⟨by rfl, by rfl, by decide⟩

/-- Claim C1, amended: a render request that fails after scene extraction
(any render, locate, assemble or upload failure, all HTTP 500) performs no
cleanup of the produced artifacts or the scene video/image directories —
no directory tree is ever removed on a failure path; only the temp script
file is deleted, by the finally clause.  Directory cleanup runs only on
the success path. -/
theorem c1_amended (env : Env) (e : Http)
    (h1 : (render_and_upload env).1 = Except.error e) (h2 : e.status = 500) :
    ((render_and_upload env).2.all (fun ev => !(Event.isRmtree ev))) = true ∧
    Event.unlink env.tempPath ∈ (render_and_upload env).2 := by
  cases hf : hasForbidden env.script with
  | true =>
    rw [render_and_upload, if_pos hf] at h1
    injection h1 with h3
    rw [← h3] at h2
    simp at h2
  | false =>
    rw [render_and_upload, if_neg (by simp [hf])] at h1 ⊢
    cases hs : findScenes env.script with
    | nil =>
      rw [hs] at h1
      have h1b : Except.error (⟨400, "No Scene classes found in script"⟩ : Http)
          = Except.error e := h1
      injection h1b with h3
      rw [← h3] at h2
      simp at h2
    | cons s ss =>
      rw [hs] at h1
      exact afterExtract_error_cleanup env (s :: ss) e h1

/-- Claim C1, amended, witness at the failing two-scene environment. -/
theorem c1_amended_witness :
    ((render_and_upload envC1).2.all (fun ev => !(Event.isRmtree ev))) = true ∧
    Event.unlink envC1.tempPath ∈ (render_and_upload envC1).2 :=
  c1_amended envC1 ⟨500, "Render failed for scene \x27B\x27: boom"⟩ rfl rfl

/-! ## Claim C3 (rejection without any subprocess) -/

/-- Claim C3: a script that trips the denylist, or in which the scene
pattern matches no scene declaration, is rejected with HTTP 400 and the
request spawns no subprocess. -/
theorem c3_reject_no_spawn (env : Env)
    (h : hasForbidden env.script = true ∨ findScenes env.script = []) :
    resultStatus (render_and_upload env).1 = some 400 ∧
    ((render_and_upload env).2.all (fun ev => !(Event.isSpawn ev))) = true := by
  rcases h with h | h
  · rw [render_and_upload, if_pos h]
    exact ⟨rfl, rfl⟩
  · cases hf : hasForbidden env.script with
    | false =>
      rw [render_and_upload, if_neg (by simp [hf]), h]
      exact ⟨rfl, rfl⟩
    | true =>
      rw [render_and_upload, if_pos hf]
      exact ⟨rfl, rfl⟩

/-- Claim C3, witness: a script with no scene declaration is rejected with
HTTP 400 and no subprocess. -/
theorem c3_witness :
    resultStatus (render_and_upload envC3).1 = some 400 ∧
    ((render_and_upload envC3).2.all (fun ev => !(Event.isSpawn ev))) = true :=
  c3_reject_no_spawn envC3 (Or.inr rfl)

/-! ## Claim C5 (locator checks flat before nested, error lists both) -/

/-- Claim C5: the artifact locator checks the flat layout path before the
nested layout path, returns the first that exists, and when neither exists
it fails carrying exactly the two checked paths, flat first. -/
theorem c5_locator_order (fs : String → Bool) (base qf scene : String) :
    locateOutput fs base qf scene =
      (if fs (flatPath base qf scene) then Except.ok (flatPath base qf scene)
       else if fs (nestedPath base qf scene) then Except.ok (nestedPath base qf scene)
       else Except.error [flatPath base qf scene, nestedPath base qf scene]) := by
  rw [locateOutput, possiblePaths]
  by_cases h1 : fs (flatPath base qf scene) <;>
    by_cases h2 : fs (nestedPath base qf scene) <;>
      simp [firstExisting, h1, h2]

end ByteLearn

namespace ByteLearn

/-! ## Claim C4 (manifest lists artifacts in declaration order) -/

/-- Claim C4: when the script declares at least two scenes and every scene
renders successfully, the concat manifest file is written with one line per
scene artifact, in exactly the declaration order of the scenes. -/
theorem c4_manifest_order (env : Env) (scenes : List String) (ev1 : List Event)
    (vids : List String)
    (h0 : hasForbidden env.script = false)
    (h1 : findScenes env.script = scenes)
    (h2 : 2 ≤ scenes.length)
    (h3 : renderScenes env (flagOf env.quality) (qfOf env.quality) (pathStem env.tempPath) scenes
        = (ev1, Except.ok vids)) :
    manifestsOf (render_and_upload env).2 =
      [("media/" ++ pathStem env.tempPath ++ "_concat.txt",
        scenes.map (fun sc =>
          fileLine env.cwd (locatedPath env.fs (pathStem env.tempPath) (qfOf env.quality) sc)))] := by
  have hvids : vids = scenes.map (locatedPath env.fs (pathStem env.tempPath) (qfOf env.quality)) :=
    renderScenes_ok_map env _ _ _ scenes ev1 vids h3
  have hspawn : ev1.all manimSpawn = true := by
    have hx := renderScenes_fst_spawn env (flagOf env.quality) (qfOf env.quality)
      (pathStem env.tempPath) scenes
    rw [h3] at hx
    simpa using hx
  have hm1 : List.filterMap manifestOfEvent ev1 = [] := filterMap_manifest_spawn ev1 hspawn
  have hlen : ¬ (vids.length = 1) := by
    rw [hvids, List.length_map]
    omega
  obtain ⟨s, ss, rfl⟩ : ∃ a l, scenes = a :: l := by
    cases scenes with
    | nil => simp at h2
    | cons a l => exact ⟨a, l, rfl⟩
  rw [render_and_upload, if_neg (by simp [h0]), h1]
  simp only [afterExtract, h3]
  rw [assembleStep, if_neg hlen]
  by_cases hcc : env.concatCode ≠ 0
  · rw [if_pos hcc]
    simp [manifestsOf, List.filterMap_cons, List.filterMap_append, manifestOfEvent, hm1,
      hvids, List.map_map, Function.comp]
  · rw [if_neg hcc]
    rcases hu : uploadStep env
        ("media/videos/" ++ pathStem env.tempPath ++ "/" ++ qfOf env.quality
          ++ "/final_output.mp4") with ⟨ev3, ures⟩
    have hm3 : List.filterMap manifestOfEvent ev3 = [] := by
      have hx := uploadStep_manifests env
        ("media/videos/" ++ pathStem env.tempPath ++ "/" ++ qfOf env.quality
          ++ "/final_output.mp4")
      rw [hu] at hx
      simpa using hx
    cases ures with
    | error e3 =>
      simp only [hu]
      simp [manifestsOf, List.filterMap_cons, List.filterMap_append, manifestOfEvent, hm1,
        hm3, hvids, List.map_map, Function.comp]
    | ok key =>
      simp only [hu]
      simp [manifestsOf, List.filterMap_cons, List.filterMap_append, manifestOfEvent, hm1,
        hm3, filterMap_manifest_cleanup, hvids, List.map_map, Function.comp]

/-- Claim C4, witness: in the all-success two-scene environment the
manifest lists scene A before scene B, matching declaration order. -/
theorem c4_witness :
    manifestsOf (render_and_upload envC4).2 =
      [("media/" ++ pathStem envC4.tempPath ++ "_concat.txt",
        (["A", "B"]).map (fun sc =>
          fileLine envC4.cwd
            (locatedPath envC4.fs (pathStem envC4.tempPath) (qfOf envC4.quality) sc)))] :=
  c4_manifest_order envC4 ["A", "B"]
    [Event.spawn ["manim", "-ql", "/tmp/tmpcd12.py", "A"],
     Event.spawn ["manim", "-ql", "/tmp/tmpcd12.py", "B"]]
    ["media/videos/tmpcd12/480p15/A.mp4", "media/videos/tmpcd12/480p15/B.mp4"]
    rfl rfl (by decide) rfl

/-! ## Claim C8 (single scene: no assembly, artifact is the final video) -/

/-- Claim C8: when the script declares exactly one scene and the request
succeeds, no concatenation subprocess is spawned, no manifest file or
assembly directory is created, and the file handed to the uploader is the
lone per-scene artifact itself. -/
theorem c8_single_scene (env : Env) (s : String) (r : Resp)
    (h1 : findScenes env.script = [s])
    (h2 : (render_and_upload env).1 = Except.ok r) :
    ((render_and_upload env).2.all (fun ev => !(assemblyEvent ev))) = true ∧
    uploadSrcs (render_and_upload env).2
      = [locatedPath env.fs (pathStem env.tempPath) (qfOf env.quality) s] := by
  cases hf : hasForbidden env.script with
  | true =>
    rw [render_and_upload, if_pos hf] at h2
    simp at h2
  | false =>
    rw [render_and_upload, if_neg (by simp [hf]), h1] at h2 ⊢
    cases hr : env.render s with
    | timeout =>
      have hrs : renderScenes env (flagOf env.quality) (qfOf env.quality)
          (pathStem env.tempPath) [s]
          = ([Event.spawn ["manim", flagOf env.quality, env.tempPath, s]],
             Except.error ⟨500, timeoutMsg s⟩) := by
        simp [renderScenes, hr]
      simp only [afterExtract, hrs] at h2
      simp at h2
    | completed code out err =>
      by_cases hc : code ≠ 0
      · have hrs : renderScenes env (flagOf env.quality) (qfOf env.quality)
            (pathStem env.tempPath) [s]
            = ([Event.spawn ["manim", flagOf env.quality, env.tempPath, s]],
               Except.error ⟨500, renderErrMsg s err⟩) := by
          simp [renderScenes, hr, hc]
        simp only [afterExtract, hrs] at h2
        simp at h2
      · cases hl : locateOutput env.fs (pathStem env.tempPath) (qfOf env.quality) s with
        | error checked =>
          have hrs : renderScenes env (flagOf env.quality) (qfOf env.quality)
              (pathStem env.tempPath) [s]
              = ([Event.spawn ["manim", flagOf env.quality, env.tempPath, s]],
                 Except.error ⟨500, locateErrMsg s checked⟩) := by
            simp [renderScenes, hr, hc, hl]
          simp only [afterExtract, hrs] at h2
          simp at h2
        | ok path =>
          have hrs : renderScenes env (flagOf env.quality) (qfOf env.quality)
              (pathStem env.tempPath) [s]
              = ([Event.spawn ["manim", flagOf env.quality, env.tempPath, s]],
                 Except.ok [path]) := by
            simp [renderScenes, hr, hc, hl, Except.map]
          have hassem : assembleStep env (pathStem env.tempPath) (qfOf env.quality) [path]
              = ([], Except.ok path) := by
            simp [assembleStep]
          have hloc : locatedPath env.fs (pathStem env.tempPath) (qfOf env.quality) s = path := by
            rw [locatedPath, hl]
          cases ht : timestampStr env.tempPath with
          | none =>
            have hup : uploadStep env path = ([], Except.error ⟨500, "Internal Server Error"⟩) := by
              rw [uploadStep, ht]
            simp only [afterExtract, hrs, hassem, hup] at h2
            simp at h2
          | some ts =>
            cases hok : env.uploadOk with
            | false =>
              have hup : uploadStep env path =
                  ([Event.upload "videos" ("manim_" ++ ts ++ "_" ++ env.quality ++ ".mp4") path],
                   Except.error ⟨500, "Upload failed"⟩) := by
                rw [uploadStep, ht]
                simp [hok]
              simp only [afterExtract, hrs, hassem, hup] at h2
              simp at h2
            | true =>
              by_cases hpub : env.publicUrl = ""
              · have hup : uploadStep env path =
                    ([Event.upload "videos" ("manim_" ++ ts ++ "_" ++ env.quality ++ ".mp4") path],
                     Except.error ⟨500, "Could not obtain public URL from Supabase"⟩) := by
                  rw [uploadStep, ht]
                  simp [hok, hpub]
                simp only [afterExtract, hrs, hassem, hup] at h2
                simp at h2
              · have hup : uploadStep env path =
                    ([Event.upload "videos" ("manim_" ++ ts ++ "_" ++ env.quality ++ ".mp4") path],
                     Except.ok ("manim_" ++ ts ++ "_" ++ env.quality ++ ".mp4")) := by
                  rw [uploadStep, ht]
                  simp [hok, hpub]
                simp only [afterExtract, hrs, hassem, hup]
                have hsp : assemblyEvent
                    (Event.spawn ["manim", flagOf env.quality, env.tempPath, s]) = false := rfl
                constructor
                · have hcl := cleanup_all_not_assembly env (pathStem env.tempPath) [path] path
                  have e1 : assemblyEvent (Event.writeTemp env.tempPath env.script) = false := rfl
                  have e2 : assemblyEvent (Event.upload "videos"
                      ("manim_" ++ ts ++ "_" ++ env.quality ++ ".mp4") path) = false := rfl
                  have e3 : assemblyEvent (Event.unlink env.tempPath) = false := rfl
                  simp [List.all_cons, List.all_append, hsp, e1, e2, e3, hcl]
                · simp [uploadSrcs, List.filterMap_cons, List.filterMap_append,
                    uploadSrcOfEvent, filterMap_upload_cleanup, hloc]

/-- Claim C8, witness at the all-success single-scene environment. -/
theorem c8_witness :
    ((render_and_upload envC8).2.all (fun ev => !(assemblyEvent ev))) = true ∧
    uploadSrcs (render_and_upload envC8).2
      = [locatedPath envC8.fs (pathStem envC8.tempPath) (qfOf envC8.quality) "A"] :=
  c8_single_scene envC8 "A"
    ⟨true, "http://example.com/u", "Rendered and uploaded 1 scenes: manim_623698779_low.mp4", 1⟩
    rfl rfl

end ByteLearn
